import Mathlib

/-!
# Verification of the robot_framework error-reporting and incident modules

A shallow embedding of `robot_framework/exceptions.py` and
`robot_framework/servicenow_handler.py`.  External side effects (HTTP calls,
orchestrator logging, queue updates, e-mail, console prints) are reified as an
`Effect` trace; HTTP responses are inputs, since the network is external.
Python functions become Lean functions from their inputs (arguments plus the
responses their HTTP calls receive) to the list of effects they perform and
their return value.
-/

namespace RobotFramework

/-- The error dictionary built at the top of `handle_error`:
`{"type": message, "error_count": error_count, "message": str(error),
  "trace": traceback.format_exc()}`.  `error_count` has Python type
`str | None`, embedded as `Option String`. -/
structure ErrorDict where
  type : String
  error_count : Option String
  message : String
  trace : String
deriving DecidableEq

/-- A record in a ServiceNow JSON response (`result` entries).  Python dicts
with string values; key lookup via `.get` returns `None` on a missing key. -/
structure SNRecord where
  fields : List (String × String)
deriving DecidableEq

/-- Embeds Python `record.get(key)`: the value at `key`, or `None` when the
key is absent. -/
def SNRecord.get (r : SNRecord) (k : String) : Option String :=
  (r.fields.find? (fun p => p.1 == k)).map (fun p => p.2)

/-- The response to the lookup GET in `get_incident`; `result` embeds
`response.json().get("result", [])`. -/
structure GetResponse where
  status_code : Nat
  text : String
  result : List SNRecord
deriving DecidableEq

/-- The response to the PUT of `update_incident` or the POST of
`post_incident`; `result` embeds `response.json().get("result", {})`. -/
structure WriteResponse where
  status_code : Nat
  text : String
  result : SNRecord
deriving DecidableEq

/-- One reified external side effect, in program order. -/
inductive Effect where
  | logError (msg : String)
  | logTrace (msg : String)
  | setQueueStatusFailed (elementId : String) (msg : String)
  | sendErrorScreenshot (email : String) (errorStr : String) (processName : String)
  | callHandleIncident (d : ErrorDict)
  | printLine (s : String)
  | httpGet (url : String)
  | httpPut (url : String) (body : List (String × String))
  | httpPost (url : String) (body : List (String × String))
deriving DecidableEq

/-- The URL carried by an HTTP effect, if it is one. -/
def Effect.urlOf : Effect → Option String
  | .httpGet u => some u
  | .httpPut u _ => some u
  | .httpPost u _ => some u
  | _ => none

/-- Number of PUT requests in a trace. -/
def countPut (effs : List Effect) : Nat :=
  (effs.filter fun e => match e with | .httpPut _ _ => true | _ => false).length

/-- Number of POST requests in a trace. -/
def countPost (effs : List Effect) : Nat :=
  (effs.filter fun e => match e with | .httpPost _ _ => true | _ => false).length

/-- Number of GET requests in a trace. -/
def countGet (effs : List Effect) : Nat :=
  (effs.filter fun e => match e with | .httpGet _ => true | _ => false).length

/-- `PROD_INSTANCE = "aarhuskommune"` (servicenow_handler.py line 8). -/
def PROD_INSTANCE : String := "aarhuskommune"

/-- `TEST_INSTANCE = "aarhuskommunedev"` (servicenow_handler.py line 9). -/
def TEST_INSTANCE : String := "aarhuskommunedev"

/-- Embeds Python `print(x)` where `x : str | None`: `None` prints `None`. -/
def pyShowOptStr : Option String → String
  | none => "None"
  | some s => s

/-- The `sysparm_query` string built in `get_incident`:
`f"short_descriptionLIKE{process_name}^active=true^state!=6^ORDERBYDESCsys_created_on"`. -/
def snQuery (process_name : String) : String :=
  "short_descriptionLIKE" ++ process_name ++ "^active=true^state!=6^ORDERBYDESCsys_created_on"

/-- The lookup URL built in `get_incident` (the `TEST_INSTANCE` line is the
active one; the `PROD_INSTANCE` line is commented out in the source). -/
def get_url (process_name : String) : String :=
  "https://" ++ TEST_INSTANCE ++ ".service-now.com/api/now/table/incident?sysparm_limit=50&sysparm_query="
    ++ snQuery process_name

/-- The update URL built in `update_incident`. -/
def put_url (existing_incident_sys_id : String) : String :=
  "https://" ++ TEST_INSTANCE ++ ".service-now.com/api/now/table/incident/"
    ++ existing_incident_sys_id

/-- The creation URL built in `post_incident`. -/
def post_url : String :=
  "https://" ++ TEST_INSTANCE ++ ".service-now.com/api/now/table/incident"

/-- Embeds `get_incident(orchestrator_connection)`.  Inputs: the current
process name and the response the GET receives.  Output: the effect trace and
the Python return value (`None` becomes `none`). -/
def get_incident (process_name : String) (resp : GetResponse) :
    List Effect × Option String :=
  let url := get_url process_name
  if resp.status_code = 200 then
    match resp.result with
    | [] => ([Effect.httpGet url], none)
    | r :: _ =>
      ([Effect.httpGet url, Effect.printLine (pyShowOptStr (r.get "sys_id"))],
        r.get "sys_id")
  else
    ([Effect.httpGet url,
      Effect.printLine ("Error " ++ toString resp.status_code ++ ": " ++ resp.text)],
      none)

/-- The comment text built in `update_incident`. -/
def comment_text (process_name error_message error_trace : String) : String :=
  "The process '" ++ process_name ++ "' has encountered another ApplicationException!\n\n"
    ++ "Exception message:\n" ++ error_message ++ "\n\n"
    ++ "Full Exception trace:\n" ++ error_trace ++ "\n\n"
    ++ "Please investigate the source of this error, as this comment is attached to an existing incident with the same process name."

/-- Embeds `update_incident(orchestrator_connection, error_dict,
existing_incident_sys_id)`.  The dict built by `handle_error` always carries
the `message` and `trace` keys, so `error_dict.get("message", "")` is the
field access. -/
def update_incident (process_name : String) (error_dict : ErrorDict)
    (existing_incident_sys_id : String) (resp : WriteResponse) :
    List Effect × Option SNRecord :=
  let ct := comment_text process_name error_dict.message error_dict.trace
  let effs := [Effect.printLine "", Effect.printLine ct,
    Effect.httpPut (put_url existing_incident_sys_id) [("comments", ct)]]
  if resp.status_code = 200 then
    (effs, some resp.result)
  else
    (effs ++ [Effect.printLine ("Error " ++ toString resp.status_code ++ ": " ++ resp.text)],
      none)

/-- The `incident_data` body built in `post_incident`. -/
def post_incident_data (process_name error_message error_trace : String) :
    List (String × String) :=
  [("contact_type", "integration"),
   ("short_description", "ApplicationException caught in process '" ++ process_name ++ "'"),
   ("description", "Error message:\n" ++ error_message ++ "\n\nFull error trace message:\n" ++ error_trace),
   ("business_service", ""),
   ("service_offering", ""),
   ("assignment_group", "b54156a91ba5115068ba5398624bcb0e"),
   ("assigned_to", ""),
   ("category", "Fejl")]

/-- Embeds `post_incident(orchestrator_connection, error_dict)`. -/
def post_incident (process_name : String) (error_dict : ErrorDict)
    (resp : WriteResponse) : List Effect × Option SNRecord :=
  let effs := [Effect.printLine "inside post_incident() function ...",
    Effect.httpPost post_url
      (post_incident_data process_name error_dict.message error_dict.trace),
    Effect.printLine "",
    Effect.printLine ("Response Status Code: " ++ toString resp.status_code),
    Effect.printLine ("Response Text: " ++ resp.text)]
  if resp.status_code = 200 then
    (effs, some resp.result)
  else
    (effs ++ [Effect.printLine ("Error " ++ toString resp.status_code ++ ": " ++ resp.text)],
      none)

/-- Embeds `handle_incident(orchestrator_connection, error_dict)`.  Inputs:
the process name, the error dict, the response to the lookup GET, and the
response to whichever write request (PUT or POST) is then issued.  The Python
guard `if existing_incident_sys_id:` is string truthiness: `None` and the
empty string both fall through to creation. -/
def handle_incident (process_name : String) (error_dict : ErrorDict)
    (getResp : GetResponse) (writeResp : WriteResponse) : List Effect :=
  let lookup := get_incident process_name getResp
  match lookup.2 with
  | some sid =>
    if sid = "" then
      lookup.1 ++ (post_incident process_name error_dict writeResp).1
    else
      lookup.1 ++ (update_incident process_name error_dict sid writeResp).1
  | none =>
    lookup.1 ++ (post_incident process_name error_dict writeResp).1

/-! ## exceptions.py -/

/-- Embeds Python's `s[:n]` on a string: the first `n` code points. -/
def pyTake (s : String) (n : Nat) : String :=
  String.mk (s.data.take n)

/-- Embeds Python's `s[-n:]` on a string (for `n > 0`): the last `n` code
points, or all of `s` when it is shorter than `n`. -/
def pyTakeLast (s : String) (n : Nat) : String :=
  String.mk (s.data.drop (s.data.length - n))

/-- One hexadecimal digit, lower case, as `json.dumps` emits in `\uXXXX`. -/
def hexDigit (n : Nat) : Char :=
  if n < 10 then Char.ofNat (48 + n) else Char.ofNat (87 + n)

/-- Four-digit lower-case hexadecimal rendering of `n < 0x10000`. -/
def hex4 (n : Nat) : String :=
  String.mk [hexDigit (n / 4096 % 16), hexDigit (n / 256 % 16),
    hexDigit (n / 16 % 16), hexDigit (n % 16)]

/-- The escaping `json.dumps(..., ensure_ascii=False)` applies to one
character of a string value: `"` and `\` are backslash-escaped, the named
control characters use their short forms, other control characters use
`\uXXXX`, and everything else (non-ASCII included) is kept literally. -/
def jsonEscapeChar (c : Char) : String :=
  if c = '"' then "\\\""
  else if c = '\\' then "\\\\"
  else if c = '\n' then "\\n"
  else if c = '\r' then "\\r"
  else if c = '\t' then "\\t"
  else if c.toNat = 8 then "\\b"
  else if c.toNat = 12 then "\\f"
  else if c.toNat < 32 then "\\u" ++ hex4 c.toNat
  else String.singleton c

/-- The concatenation of the escapes of each character. -/
def jsonEscape : List Char → String
  | [] => ""
  | c :: cs => jsonEscapeChar c ++ jsonEscape cs

/-- A JSON string literal for `s`, as `json.dumps` renders it. -/
def jsonString (s : String) : String :=
  "\"" ++ jsonEscape s.data ++ "\""

/-- `null` for `None`, a JSON string otherwise (the `error_count` value). -/
def jsonOptString : Option String → String
  | none => "null"
  | some s => jsonString s

/-- Embeds `json.dumps(error_dict, ensure_ascii=False)` for the four-key dict
built in `handle_error`, with CPython's default separators `", "` and
`": "` and insertion order preserved. -/
def jsonDumps (d : ErrorDict) : String :=
  "\x7b\"type\": " ++ jsonString d.type
    ++ ", \"error_count\": " ++ jsonOptString d.error_count
    ++ ", \"message\": " ++ jsonString d.message
    ++ ", \"trace\": " ++ jsonString d.trace ++ "\x7d"

/-- The ellipsis marker `handle_error` joins the two slices with:
the literal text between `{error_msg[:500]}` and `{error_msg[-490:]}` in the
f-string `f"{error_msg[:500]}  [...] {error_msg[-490:]}"`. -/
def ellipsisMarker : String := "  [...] "

/-- The truncation applied in `handle_error` before the message is logged
and stored: serialized forms over 1000 characters become
`first 500 ++ marker ++ last 490`; shorter ones pass unchanged. -/
def shorten_error_msg (s : String) : String :=
  if 1000 < s.length then pyTake s 500 ++ ellipsisMarker ++ pyTakeLast s 490
  else s

/-- The exception argument of `handle_error`: its `str()` rendering, the
ambient `traceback.format_exc()` at the catch site, and whether the instance
is a `BusinessError`. -/
structure PyException where
  str : String
  trace : String
  isBusinessError : Bool
deriving DecidableEq

/-- A queue element; only its id is used by `handle_error`. -/
structure QueueElement where
  id : String
deriving DecidableEq

/-- The ambient configuration and orchestrator state `handle_error` reads:
the value of the `config.ERROR_EMAIL` constant, the current process name, and
the configured maximum retry count.

Modelled from the spec: `config.py` is not part of the repository snapshot,
so `maxRetryCount` stands for `config.MAX_RETRY_COUNT`, "a configured
maximum" retry count, carried as a string since it is compared for equality
with the `error_count : str | None` argument; `errorEmail` stands for the
value the `config.ERROR_EMAIL` constant lookup returns. -/
structure Env where
  errorEmail : String
  processName : String
  maxRetryCount : String
deriving DecidableEq

/-- Embeds the Python expression `error != BusinessError` on line 47 of
exceptions.py.  `error` is an exception *instance* and `BusinessError` is the
*class* object; `Exception` inherits `object.__eq__`, which is identity, so
an instance is never equal to the class and the expression evaluates to
`True` for every exception passed in, `BusinessError` instances included. -/
def error_ne_BusinessError_class (_error : PyException) : Bool :=
  true

/-- Embeds the body of the `try` block on lines 51–62 of exceptions.py
together with its `except` clause.  `outcome` is whether the call into
`servicenow_handler.handle_incident` (and the HTTP requests it performs)
returns normally (`Except.ok ()`) or raises an exception rendered as `e`
(`Except.error e`). -/
def escalation_effects (error_dict : ErrorDict) (error_msg : String)
    (outcome : Except String Unit) : List Effect :=
  match outcome with
  | .ok _ =>
    [Effect.logTrace "ApplicationException caught. Handling ServiceNow incident.",
     Effect.callHandleIncident error_dict,
     Effect.logTrace "ServiceNow incident handled."]
  | .error e =>
    [Effect.logTrace "ApplicationException caught. Handling ServiceNow incident.",
     Effect.callHandleIncident error_dict,
     Effect.printLine ("Failed to create ServiceNow incident: " ++ e),
     Effect.logError ("Failed to create ServiceNow incident. error_msg: " ++ error_msg)]

/-- The `error_dict` `handle_error` builds from its arguments. -/
def mkErrorDict (message : String) (error_count : Option String)
    (error : PyException) : ErrorDict :=
  { type := message, error_count := error_count,
    message := error.str, trace := error.trace }

/-- The effect trace of one `handle_error` run, in program order:
`log_error`, the conditional queue-element failure, the conditional
screenshot e-mail, the conditional escalation. -/
def handle_error_effects (message : String) (error_count : Option String)
    (error : PyException) (queue_element : Option QueueElement) (env : Env)
    (outcome : Except String Unit) : List Effect :=
  let error_dict := mkErrorDict message error_count error
  let error_msg := shorten_error_msg (jsonDumps error_dict)
  [Effect.logError error_msg]
    ++ (match queue_element with
        | some qe => [Effect.setQueueStatusFailed qe.id error_msg]
        | none => [])
    ++ (if error_ne_BusinessError_class error then
          [Effect.sendErrorScreenshot env.errorEmail error.str env.processName]
        else [])
    ++ (if message = "ApplicationException" ∧ error_count = some env.maxRetryCount then
          escalation_effects error_dict error_msg outcome
        else [])

/-- Embeds `handle_error(message, error_count, error, queue_element,
orchestrator_connection)`.  `env` carries the ambient configuration;
`outcome` is the outcome of the escalation call when it happens.  The result
is `Except.ok` of the effect trace: the `try`/`except` around the only
fallible call group means the function itself returns normally on every
escalation outcome. -/
def handle_error (message : String) (error_count : Option String)
    (error : PyException) (queue_element : Option QueueElement) (env : Env)
    (outcome : Except String Unit) : Except String (List Effect) :=
  Except.ok (handle_error_effects message error_count error queue_element env outcome)

/-- Whether a trace contains an invocation of
`servicenow_handler.handle_incident`. -/
def callsHandleIncident (effs : List Effect) : Bool :=
  effs.any fun e => match e with | .callHandleIncident _ => true | _ => false

/-! ## Helper lemmas -/

/-- `s[:n]` has exactly `n` characters when `s` has at least `n`. -/
lemma pyTake_length (s : String) (n : Nat) (h : n ≤ s.length) :
    (pyTake s n).length = n := by
  have hd : s.length = s.data.length := rfl
  unfold pyTake
  rw [String.length_mk, List.length_take]
  omega

/-- `s[-n:]` has exactly `n` characters when `s` has at least `n`. -/
lemma pyTakeLast_length (s : String) (n : Nat) (h : n ≤ s.length) :
    (pyTakeLast s n).length = n := by
  have hd : s.length = s.data.length := rfl
  unfold pyTakeLast
  rw [String.length_mk, List.length_drop]
  omega

/-- Escaping a run of `n` letters `a` yields `n` characters. -/
lemma jsonEscape_replicate_a (n : Nat) :
    (jsonEscape (List.replicate n 'a')).length = n := by
  induction n with
  | zero => rfl
  | succ k ih =>
    rw [List.replicate_succ]
    simp only [jsonEscape, String.length_append, ih]
    have h1 : (jsonEscapeChar 'a').length = 1 := rfl
    omega

/-- A concrete error dict whose serialized form is longer than 1000
characters: its `message` is 1100 letters `a`. -/
lemma long_dict_serialized_long :
    1000 < (jsonDumps (mkErrorDict "ApplicationException" none
      ⟨String.mk (List.replicate 1100 'a'), "tr", false⟩)).length := by
  simp only [mkErrorDict, jsonDumps, jsonString, jsonOptString, String.length_append]
  rw [jsonEscape_replicate_a]
  omega

/-! ## Claim theorems -/

/-- C1: `handle_error` invokes the incident deduplicator
`servicenow_handler.handle_incident` if and only if its category/message
argument is `"ApplicationException"` and its retry-count argument equals the
configured maximum retry count; for any other combination (wrong category,
wrong count, or both) no escalation to ticketing occurs. -/
theorem handle_error_escalates_iff (message : String) (error_count : Option String)
    (error : PyException) (queue_element : Option QueueElement) (env : Env)
    (outcome : Except String Unit) :
    callsHandleIncident
        (handle_error_effects message error_count error queue_element env outcome) = true
      ↔ (message = "ApplicationException" ∧ error_count = some env.maxRetryCount) := by
  unfold callsHandleIncident handle_error_effects
  by_cases h : message = "ApplicationException" ∧ error_count = some env.maxRetryCount
  · simp only [if_pos h, List.any_append]
    cases queue_element <;> cases outcome <;>
      simp [escalation_effects, error_ne_BusinessError_class, h]
  · simp only [if_neg h, List.any_append]
    cases queue_element <;>
      simp [error_ne_BusinessError_class, h]

/-- C3 (code bug): the spec says business-rule-violation errors never trigger
the screenshot e-mail, but line 47 of exceptions.py tests
`error != BusinessError`, comparing the exception *instance* against the
*class*, which is true for every exception.  Hence `handle_error` sends the
screenshot e-mail even when the error is a `BusinessError` instance. -/
theorem business_error_still_emails_screenshot (message : String)
    (error_count : Option String) (s t : String)
    (queue_element : Option QueueElement) (env : Env)
    (outcome : Except String Unit) :
    Effect.sendErrorScreenshot env.errorEmail s env.processName ∈
      handle_error_effects message error_count ⟨s, t, true⟩ queue_element env outcome := by
  unfold handle_error_effects error_ne_BusinessError_class
  cases queue_element <;> simp

/-- C4: when the serialized JSON form of the error report exceeds 1000
characters, the message `handle_error` logs and stores on the queue element
is the first 500 characters, the ellipsis marker, and the last 490
characters of the serialized form, so its length is bounded by 1000 plus the
marker's length; a serialized form of at most 1000 characters is logged and
stored unchanged. -/
theorem handle_error_truncates_and_stores (message : String)
    (error_count : Option String) (error : PyException) (qe : QueueElement)
    (env : Env) (outcome : Except String Unit) :
    (1000 < (jsonDumps (mkErrorDict message error_count error)).length →
      shorten_error_msg (jsonDumps (mkErrorDict message error_count error)) =
          pyTake (jsonDumps (mkErrorDict message error_count error)) 500
            ++ ellipsisMarker
            ++ pyTakeLast (jsonDumps (mkErrorDict message error_count error)) 490
        ∧ (shorten_error_msg (jsonDumps (mkErrorDict message error_count error))).length
            ≤ 1000 + ellipsisMarker.length)
    ∧ ((jsonDumps (mkErrorDict message error_count error)).length ≤ 1000 →
      shorten_error_msg (jsonDumps (mkErrorDict message error_count error)) =
        jsonDumps (mkErrorDict message error_count error))
    ∧ Effect.logError (shorten_error_msg (jsonDumps (mkErrorDict message error_count error)))
        ∈ handle_error_effects message error_count error (some qe) env outcome
    ∧ Effect.setQueueStatusFailed qe.id
          (shorten_error_msg (jsonDumps (mkErrorDict message error_count error)))
        ∈ handle_error_effects message error_count error (some qe) env outcome := by
  have hmark : ellipsisMarker.length = 8 := rfl
  refine ⟨fun h => ⟨?_, ?_⟩, fun h => ?_, ?_, ?_⟩
  · unfold shorten_error_msg
    rw [if_pos h]
  · unfold shorten_error_msg
    rw [if_pos h, String.length_append, String.length_append,
      pyTake_length _ _ (by omega), pyTakeLast_length _ _ (by omega)]
    omega
  · unfold shorten_error_msg
    rw [if_neg (by omega)]
  · unfold handle_error_effects
    simp
  · unfold handle_error_effects
    simp

/-- C4 witness: a concrete error report with an 1100-character message
serializes to more than 1000 characters, and the stored message stays within
1000 plus the marker length. -/
theorem handle_error_truncates_and_stores_witness :
    1000 < (jsonDumps (mkErrorDict "ApplicationException" none
        ⟨String.mk (List.replicate 1100 'a'), "tr", false⟩)).length
    ∧ (shorten_error_msg (jsonDumps (mkErrorDict "ApplicationException" none
        ⟨String.mk (List.replicate 1100 'a'), "tr", false⟩))).length
      ≤ 1000 + ellipsisMarker.length :=
  ⟨long_dict_serialized_long,
    ((handle_error_truncates_and_stores "ApplicationException" none
        ⟨String.mk (List.replicate 1100 'a'), "tr", false⟩ ⟨"q1"⟩
        ⟨"e@x", "P", "3"⟩ (Except.ok ())).1 long_dict_serialized_long).2⟩

/-- C7: an exception raised inside the incident-escalation path (the
`handle_incident` call and its HTTP requests) is caught by `handle_error`:
the function still returns normally for every escalation outcome, and in the
failing case its trace contains the console message and the orchestrator
error log entry; the exception never propagates to `handle_error`'s
caller. -/
theorem handle_error_absorbs_escalation_failure (message : String)
    (error_count : Option String) (error : PyException)
    (queue_element : Option QueueElement) (env : Env) (e : String)
    (hcond : message = "ApplicationException" ∧ error_count = some env.maxRetryCount) :
    (∀ outcome, handle_error message error_count error queue_element env outcome =
      Except.ok (handle_error_effects message error_count error queue_element env outcome))
    ∧ Effect.printLine ("Failed to create ServiceNow incident: " ++ e) ∈
        handle_error_effects message error_count error queue_element env (Except.error e)
    ∧ Effect.logError ("Failed to create ServiceNow incident. error_msg: " ++
          shorten_error_msg (jsonDumps (mkErrorDict message error_count error))) ∈
        handle_error_effects message error_count error queue_element env (Except.error e) := by
  refine ⟨fun _ => rfl, ?_, ?_⟩ <;>
    · obtain ⟨h1, h2⟩ := hcond
      subst h1
      subst h2
      cases queue_element <;> simp [handle_error_effects, escalation_effects]

/-- C7 witness: a concrete qualifying error whose escalation raises
`"boom"` is absorbed, printed and logged. -/
theorem handle_error_absorbs_escalation_failure_witness :
    handle_error "ApplicationException" (some "3") ⟨"m", "t", false⟩ none
        ⟨"e@x", "P", "3"⟩ (Except.error "boom") =
      Except.ok (handle_error_effects "ApplicationException" (some "3")
        ⟨"m", "t", false⟩ none ⟨"e@x", "P", "3"⟩ (Except.error "boom"))
    ∧ Effect.printLine "Failed to create ServiceNow incident: boom" ∈
        handle_error_effects "ApplicationException" (some "3") ⟨"m", "t", false⟩ none
          ⟨"e@x", "P", "3"⟩ (Except.error "boom") :=
  ⟨(handle_error_absorbs_escalation_failure "ApplicationException" (some "3")
      ⟨"m", "t", false⟩ none ⟨"e@x", "P", "3"⟩ "boom" ⟨rfl, rfl⟩).1 (Except.error "boom"),
    (handle_error_absorbs_escalation_failure "ApplicationException" (some "3")
      ⟨"m", "t", false⟩ none ⟨"e@x", "P", "3"⟩ "boom" ⟨rfl, rfl⟩).2.1⟩

/-- C2 counterexample: a 200 lookup response whose result list has one entry
that carries no `sys_id` key does *not* lead to an update call — the claim
"result list contains at least one entry implies exactly one PUT and no
POST" is false at this input (the code posts a new incident instead). -/
theorem handle_incident_nonempty_without_sys_id_posts :
    ¬ (countPut (handle_incident "P" ⟨"ApplicationException", some "3", "m", "t"⟩
          ⟨200, "", [⟨[]⟩]⟩ ⟨200, "", ⟨[]⟩⟩) = 1
      ∧ countPost (handle_incident "P" ⟨"ApplicationException", some "3", "m", "t"⟩
          ⟨200, "", [⟨[]⟩]⟩ ⟨200, "", ⟨[]⟩⟩) = 0) := by
  decide

/-- C2 (amended): for every invocation of `handle_incident`, if the lookup
returns a 200 response whose result list is non-empty and whose first (most
recently created) entry carries a non-empty `sys_id`, exactly one update
call (PUT) is issued, addressed to that `sys_id`, and no create call (POST)
is issued; if the result list is empty, exactly one create call (POST) is
issued and no update call is issued. -/
theorem handle_incident_update_or_create (pn : String) (ed : ErrorDict)
    (g : GetResponse) (w : WriteResponse) (h200 : g.status_code = 200) :
    (∀ r rest sid, g.result = r :: rest → SNRecord.get r "sys_id" = some sid →
      sid ≠ "" →
        countPut (handle_incident pn ed g w) = 1
        ∧ Effect.httpPut (put_url sid)
            [("comments", comment_text pn ed.message ed.trace)]
            ∈ handle_incident pn ed g w
        ∧ countPost (handle_incident pn ed g w) = 0)
    ∧ (g.result = [] →
        countPost (handle_incident pn ed g w) = 1
        ∧ countPut (handle_incident pn ed g w) = 0) := by
  constructor
  · intro r rest sid hres hsid hne
    by_cases hw : w.status_code = 200 <;>
      simp [handle_incident, get_incident, update_incident, h200, hres, hsid, hne,
        hw, countPut, countPost]
  · intro hres
    by_cases hw : w.status_code = 200 <;>
      simp [handle_incident, get_incident, post_incident, h200, hres, hw,
        countPut, countPost]

/-- C2 witness: concrete 200 responses, one with first entry `sys_id`
`"abc123"` (update branch) and one with an empty result list (create
branch). -/
theorem handle_incident_update_or_create_witness :
    (countPut (handle_incident "P" ⟨"ApplicationException", some "3", "m", "t"⟩
        ⟨200, "", [⟨[("sys_id", "abc123")]⟩]⟩ ⟨200, "", ⟨[]⟩⟩) = 1
      ∧ Effect.httpPut (put_url "abc123")
          [("comments", comment_text "P" "m" "t")]
          ∈ handle_incident "P" ⟨"ApplicationException", some "3", "m", "t"⟩
              ⟨200, "", [⟨[("sys_id", "abc123")]⟩]⟩ ⟨200, "", ⟨[]⟩⟩
      ∧ countPost (handle_incident "P" ⟨"ApplicationException", some "3", "m", "t"⟩
          ⟨200, "", [⟨[("sys_id", "abc123")]⟩]⟩ ⟨200, "", ⟨[]⟩⟩) = 0)
    ∧ (countPost (handle_incident "P" ⟨"ApplicationException", some "3", "m", "t"⟩
          ⟨200, "", []⟩ ⟨200, "", ⟨[]⟩⟩) = 1
      ∧ countPut (handle_incident "P" ⟨"ApplicationException", some "3", "m", "t"⟩
          ⟨200, "", []⟩ ⟨200, "", ⟨[]⟩⟩) = 0) :=
  ⟨(handle_incident_update_or_create "P" ⟨"ApplicationException", some "3", "m", "t"⟩
      ⟨200, "", [⟨[("sys_id", "abc123")]⟩]⟩ ⟨200, "", ⟨[]⟩⟩ rfl).1
      ⟨[("sys_id", "abc123")]⟩ [] "abc123" rfl rfl (by decide),
    (handle_incident_update_or_create "P" ⟨"ApplicationException", some "3", "m", "t"⟩
      ⟨200, "", []⟩ ⟨200, "", ⟨[]⟩⟩ rfl).2 rfl⟩

/-- C5: a non-200 lookup response is treated exactly like a zero-result
lookup: `get_incident` returns `None` and `handle_incident` falls through to
creating a new incident via `post_incident` (one POST, no PUT). -/
theorem handle_incident_lookup_failure_creates (pn : String) (ed : ErrorDict)
    (g : GetResponse) (w : WriteResponse) (hne : g.status_code ≠ 200) :
    (get_incident pn g).2 = none
    ∧ countPost (handle_incident pn ed g w) = 1
    ∧ countPut (handle_incident pn ed g w) = 0 := by
  by_cases hw : w.status_code = 200 <;>
    simp [handle_incident, get_incident, post_incident, hne, hw,
      countPut, countPost]

/-- C5 witness: a concrete 500 lookup response leads to creation. -/
theorem handle_incident_lookup_failure_creates_witness :
    (get_incident "P" ⟨500, "oops", []⟩).2 = none
    ∧ countPost (handle_incident "P" ⟨"ApplicationException", some "3", "m", "t"⟩
        ⟨500, "oops", []⟩ ⟨200, "", ⟨[]⟩⟩) = 1
    ∧ countPut (handle_incident "P" ⟨"ApplicationException", some "3", "m", "t"⟩
        ⟨500, "oops", []⟩ ⟨200, "", ⟨[]⟩⟩) = 0 :=
  handle_incident_lookup_failure_creates "P" ⟨"ApplicationException", some "3", "m", "t"⟩
    ⟨500, "oops", []⟩ ⟨200, "", ⟨[]⟩⟩ (by decide)

/-- The lookup URL with its literal parts merged: the incident endpoint on
the test instance, `sysparm_limit=50`, and a `sysparm_query` selecting
incidents whose short description contains the process name, active, with
state other than 6, ordered by creation time descending. -/
lemma get_url_eq (pn : String) :
    get_url pn =
      "https://aarhuskommunedev.service-now.com/api/now/table/incident?sysparm_limit=50&sysparm_query=short_descriptionLIKE"
        ++ pn ++ "^active=true^state!=6^ORDERBYDESCsys_created_on" := by
  unfold get_url snQuery TEST_INSTANCE
  rw [show "https://" ++ "aarhuskommunedev"
        ++ ".service-now.com/api/now/table/incident?sysparm_limit=50&sysparm_query=" =
      "https://aarhuskommunedev.service-now.com/api/now/table/incident?sysparm_limit=50&sysparm_query="
    from rfl]
  rw [← String.append_assoc, ← String.append_assoc]
  rw [show "https://aarhuskommunedev.service-now.com/api/now/table/incident?sysparm_limit=50&sysparm_query="
        ++ "short_descriptionLIKE" =
      "https://aarhuskommunedev.service-now.com/api/now/table/incident?sysparm_limit=50&sysparm_query=short_descriptionLIKE"
    from rfl]

/-- C6: every lookup request issued by `get_incident` — whatever the
response — is a single GET to the incident endpoint of the configured
instance with `sysparm_limit=50` and a `sysparm_query` that selects
incidents whose short description contains the current process name, with
`active=true` and `state!=6`, ordered by creation time descending. -/
theorem get_incident_request_shape (pn : String) (g : GetResponse) :
    countGet (get_incident pn g).1 = 1
    ∧ Effect.httpGet (get_url pn) ∈ (get_incident pn g).1
    ∧ get_url pn =
        "https://aarhuskommunedev.service-now.com/api/now/table/incident?sysparm_limit=50&sysparm_query=short_descriptionLIKE"
          ++ pn ++ "^active=true^state!=6^ORDERBYDESCsys_created_on" := by
  refine ⟨?_, ?_, get_url_eq pn⟩ <;>
    · by_cases h : g.status_code = 200 <;>
        cases hres : g.result <;>
          simp [get_incident, h, hres, countGet]

/-- C8: a non-200 response to the PUT of `update_incident` or to the POST of
`post_incident` makes the function log the status code and response text to
standard output and return `None` (nothing created or updated); exactly one
HTTP request is issued (no retry), and the function returns rather than
raising. -/
theorem write_failure_logged_and_swallowed (pn : String) (ed : ErrorDict)
    (sid : String) (w : WriteResponse) (hne : w.status_code ≠ 200) :
    (update_incident pn ed sid w).2 = none
    ∧ Effect.printLine ("Error " ++ toString w.status_code ++ ": " ++ w.text)
        ∈ (update_incident pn ed sid w).1
    ∧ countPut (update_incident pn ed sid w).1 = 1
    ∧ countPost (update_incident pn ed sid w).1 = 0
    ∧ countGet (update_incident pn ed sid w).1 = 0
    ∧ (post_incident pn ed w).2 = none
    ∧ Effect.printLine ("Error " ++ toString w.status_code ++ ": " ++ w.text)
        ∈ (post_incident pn ed w).1
    ∧ countPost (post_incident pn ed w).1 = 1
    ∧ countPut (post_incident pn ed w).1 = 0
    ∧ countGet (post_incident pn ed w).1 = 0 := by
  simp [update_incident, post_incident, hne, countPut, countPost, countGet]

/-- C8 witness: a concrete 403 response to either write request. -/
theorem write_failure_logged_and_swallowed_witness :
    (update_incident "P" ⟨"ApplicationException", some "3", "m", "t"⟩ "abc123"
        ⟨403, "denied", ⟨[]⟩⟩).2 = none
    ∧ Effect.printLine "Error 403: denied"
        ∈ (update_incident "P" ⟨"ApplicationException", some "3", "m", "t"⟩ "abc123"
            ⟨403, "denied", ⟨[]⟩⟩).1
    ∧ (post_incident "P" ⟨"ApplicationException", some "3", "m", "t"⟩
        ⟨403, "denied", ⟨[]⟩⟩).2 = none :=
  ⟨(write_failure_logged_and_swallowed "P" ⟨"ApplicationException", some "3", "m", "t"⟩
      "abc123" ⟨403, "denied", ⟨[]⟩⟩ (by decide)).1,
    (write_failure_logged_and_swallowed "P" ⟨"ApplicationException", some "3", "m", "t"⟩
      "abc123" ⟨403, "denied", ⟨[]⟩⟩ (by decide)).2.1,
    (write_failure_logged_and_swallowed "P" ⟨"ApplicationException", some "3", "m", "t"⟩
      "abc123" ⟨403, "denied", ⟨[]⟩⟩ (by decide)).2.2.2.2.2.1⟩

/-- C9: a 200 lookup response with a non-empty result list whose first entry
has no `sys_id` key or an empty-string `sys_id` makes `get_incident` return
that falsy value, and `handle_incident` then issues a create call
(`post_incident`) rather than an update call, despite the matching open
incident. -/
theorem falsy_sys_id_creates_instead_of_updating (pn : String) (ed : ErrorDict)
    (w : WriteResponse) (r : SNRecord) (rest : List SNRecord) (txt : String)
    (h : SNRecord.get r "sys_id" = none ∨ SNRecord.get r "sys_id" = some "") :
    (get_incident pn ⟨200, txt, r :: rest⟩).2 = SNRecord.get r "sys_id"
    ∧ countPost (handle_incident pn ed ⟨200, txt, r :: rest⟩ w) = 1
    ∧ countPut (handle_incident pn ed ⟨200, txt, r :: rest⟩ w) = 0 := by
  rcases h with h | h <;>
    by_cases hw : w.status_code = 200 <;>
      simp [handle_incident, get_incident, post_incident, h, hw,
        countPut, countPost]

/-- C9 witness: a result entry with no `sys_id` key at all. -/
theorem falsy_sys_id_creates_instead_of_updating_witness :
    (get_incident "P" ⟨200, "", [⟨[("number", "INC1")]⟩]⟩).2 = none
    ∧ countPost (handle_incident "P" ⟨"ApplicationException", some "3", "m", "t"⟩
        ⟨200, "", [⟨[("number", "INC1")]⟩]⟩ ⟨200, "", ⟨[]⟩⟩) = 1
    ∧ countPut (handle_incident "P" ⟨"ApplicationException", some "3", "m", "t"⟩
        ⟨200, "", [⟨[("number", "INC1")]⟩]⟩ ⟨200, "", ⟨[]⟩⟩) = 0 :=
  falsy_sys_id_creates_instead_of_updating "P"
    ⟨"ApplicationException", some "3", "m", "t"⟩ ⟨200, "", ⟨[]⟩⟩
    ⟨[("number", "INC1")]⟩ [] "" (Or.inl (by decide))

/-- A request URL addresses a given host when it starts with
`https://<host>/`. -/
def sentToHost (host : String) (u : String) : Prop :=
  ("https://" ++ host ++ "/").data <+: u.data

/-- A prefix of `a` is a prefix of `a ++ b`. -/
lemma isPrefix_data_append {p : List Char} (a b : String) (h : p <+: a.data) :
    p <+: (a ++ b).data := by
  rw [String.data_append]
  exact h.trans (List.prefix_append a.data b.data)

/-- A URL starting with the test-instance base is sent to the test host and
not to the production host: the two hosts first differ at character 21
(`d` versus `.`). -/
lemma hosts_of_test_data_prefix {u : String}
    (h : ("https://aarhuskommunedev.service-now.com/").data <+: u.data) :
    sentToHost (TEST_INSTANCE ++ ".service-now.com") u
    ∧ ¬ sentToHost (PROD_INSTANCE ++ ".service-now.com") u := by
  constructor
  · have he : ("https://" ++ (TEST_INSTANCE ++ ".service-now.com") ++ "/").data
        = ("https://aarhuskommunedev.service-now.com/").data := by decide
    unfold sentToHost
    rw [he]
    exact h
  · intro hcon
    obtain ⟨t, ht⟩ := hcon
    obtain ⟨t2, ht2⟩ := h
    have h1 : u.data[21]? = some '.' := by
      rw [← ht, List.getElem?_append_left (by decide)]
      decide
    have h2 : u.data[21]? = some 'd' := by
      rw [← ht2, List.getElem?_append_left (by decide)]
      decide
    rw [h1] at h2
    exact absurd h2 (by decide)

/-- The update URL with its literal part merged. -/
lemma put_url_eq (sid : String) :
    put_url sid =
      "https://aarhuskommunedev.service-now.com/api/now/table/incident/" ++ sid := by
  unfold put_url TEST_INSTANCE
  rw [show "https://" ++ "aarhuskommunedev" ++ ".service-now.com/api/now/table/incident/" =
      "https://aarhuskommunedev.service-now.com/api/now/table/incident/" from rfl]

/-- Any URL-carrying effect of `get_incident` carries the lookup URL. -/
lemma get_incident_urls (pn : String) (g : GetResponse) :
    ∀ e ∈ (get_incident pn g).1, ∀ u, Effect.urlOf e = some u → u = get_url pn := by
  intro e he u hu
  by_cases h : g.status_code = 200 <;>
    cases hres : g.result <;>
      simp [get_incident, h, hres] at he <;>
        rcases he with rfl | rfl <;>
          simp [Effect.urlOf] at hu <;>
            exact hu.symm

/-- Any URL-carrying effect of `update_incident` carries the update URL. -/
lemma update_incident_urls (pn : String) (ed : ErrorDict) (sid : String)
    (w : WriteResponse) :
    ∀ e ∈ (update_incident pn ed sid w).1, ∀ u, Effect.urlOf e = some u →
      u = put_url sid := by
  intro e he u hu
  by_cases h : w.status_code = 200 <;>
    simp [update_incident, h] at he <;>
      rcases he with rfl | rfl | rfl | rfl <;>
        simp [Effect.urlOf] at hu <;>
          exact hu.symm

/-- Any URL-carrying effect of `post_incident` carries the creation URL. -/
lemma post_incident_urls (pn : String) (ed : ErrorDict) (w : WriteResponse) :
    ∀ e ∈ (post_incident pn ed w).1, ∀ u, Effect.urlOf e = some u →
      u = post_url := by
  intro e he u hu
  by_cases h : w.status_code = 200 <;>
    simp [post_incident, h] at he <;>
      first
      | (rcases he with rfl | rfl | rfl | rfl | rfl <;>
          simp [Effect.urlOf] at hu <;> exact hu.symm)
      | (rcases he with rfl | rfl | rfl | rfl | rfl | rfl <;>
          simp [Effect.urlOf] at hu <;> exact hu.symm)

/-- C10: every HTTP request issued by `get_incident`, `update_incident` and
`post_incident` is addressed to the test-environment host
`aarhuskommunedev.service-now.com` (built from `TEST_INSTANCE`); none is
addressed to the production host `aarhuskommune.service-now.com` (built from
`PROD_INSTANCE`). -/
theorem all_requests_target_test_instance (pn sid : String) (ed : ErrorDict)
    (g : GetResponse) (w : WriteResponse) :
    ∀ e, (e ∈ (get_incident pn g).1 ∨ e ∈ (update_incident pn ed sid w).1
        ∨ e ∈ (post_incident pn ed w).1) →
      ∀ u, Effect.urlOf e = some u →
        sentToHost (TEST_INSTANCE ++ ".service-now.com") u
        ∧ ¬ sentToHost (PROD_INSTANCE ++ ".service-now.com") u := by
  intro e he u hu
  rcases he with he | he | he
  · rw [get_incident_urls pn g e he u hu]
    apply hosts_of_test_data_prefix
    rw [get_url_eq]
    exact isPrefix_data_append _ _ (isPrefix_data_append _ _ (by decide))
  · rw [update_incident_urls pn ed sid w e he u hu]
    apply hosts_of_test_data_prefix
    rw [put_url_eq]
    exact isPrefix_data_append _ _ (by decide)
  · rw [post_incident_urls pn ed w e he u hu]
    apply hosts_of_test_data_prefix
    decide

/-- C10 witness: the concrete lookup request of a concrete run is sent to
the test host and not to the production host. -/
theorem all_requests_target_test_instance_witness :
    sentToHost (TEST_INSTANCE ++ ".service-now.com") (get_url "P")
    ∧ ¬ sentToHost (PROD_INSTANCE ++ ".service-now.com") (get_url "P") :=
  all_requests_target_test_instance "P" "abc123" ⟨"t", none, "m", "tr"⟩
    ⟨200, "", []⟩ ⟨200, "", ⟨[]⟩⟩ (Effect.httpGet (get_url "P"))
    (Or.inl (by simp [get_incident])) (get_url "P") rfl

end RobotFramework
